import Mathlib

/-!
Shallow embedding of the scheduled-publish / retry / analytics core of the
`social` repository (LinkedIn publishing pipeline), together with theorems
settling the specification claims about it.

Conventions of the embedding:
* Python `None`-able string fields become `Option String`; Python truthiness
  of a string field (`if not x`) is `falsyStr`.
* Timestamps are integers (seconds); `now` is passed explicitly.
* The web framework's persistence is explicit state passing on `ContentPost`
  values and on lists of analytics rows; the job queue is modelled by the
  return value that says which delayed job (if any) was enqueued.
* The vendor HTTP layer is an oracle argument: the publisher takes
  `api : ApiCall → Except String ApiResult` (where `Except.error` stands for
  a raised Python exception), and each `LinkedInAPI` operation takes the
  `HttpResponse` the single request it issues would receive, returning the
  list of requests it issued.
-/

/-- Python truthiness test for an optional string: `not x` holds for `None`
and for the empty string. -/
def falsyStr : Option String → Bool
  | none => true
  | some s => s.isEmpty

/-- Python `x or d` for an optional string: the default replaces `None` and
the empty string. -/
def orDefaultStr (x : Option String) (d : String) : String :=
  match x with
  | none => d
  | some s => if s.isEmpty then d else s

/-- Python `x or d` for an optional count (`post.retry_count or 0`,
`settings.max_retry_attempts or 3`): the default replaces `None` and `0`. -/
def orDefaultNat (x : Option Nat) (d : Nat) : Nat :=
  match x with
  | none => d
  | some n => if n = 0 then d else n

/-- The `Content Post` document: the fields of the doctype that the
publish / retry / analytics core reads or writes. -/
structure ContentPost where
  name : String
  platform : String
  title : String
  content : Option String
  content_type : String
  link_url : Option String
  link_title : Option String
  link_description : Option String
  linkedin_visibility : Option String
  media_attachments : List String
  social_profile : Option String
  status : String
  approval_status : String
  publish_now : Bool
  scheduled_time : Option Int
  published_at : Option Int
  failed_at : Option Int
  failure_reason : Option String
  retry_count : Option Nat
  next_retry_at : Option Int
  linkedin_post_id : Option String
  linkedin_post_url : Option String
  linkedin_urn : Option String
  deriving Repr, DecidableEq

/-- The `Social Profile` document fields read by the publisher. -/
structure SocialProfile where
  name : String
  platform_type : String
  linkedin_access_token : Option String
  linkedin_profile_id : Option String
  linkedin_company_id : Option String
  deriving Repr, DecidableEq

/-- A vendor create-post call issued by the publisher, tagged by strategy,
with the arguments the source passes to `LinkedInAPI`. -/
inductive ApiCall where
  | textPost (profile_id : String) (content : Option String)
      (visibility : String) (is_company : Bool)
  | imagePost (profile_id : String) (content : Option String)
      (image_url : String) (visibility : String) (is_company : Bool)
  | linkPost (profile_id : String) (content : Option String)
      (link_url : Option String) (link_title : Option String)
      (link_description : Option String) (visibility : String)
      (is_company : Bool)
  deriving Repr, DecidableEq

/-- The vendor response body a create-post call yields: `result.get("id", "")`
is the only key the publisher reads. -/
structure ApiResult where
  id : String
  deriving Repr, DecidableEq

/-- The normalized result shape `LinkedInPublisher.publish_post` returns:
either `{success: True, post_id, post_url, urn, linkedin_response}` or
`{success: False, error}`. -/
inductive PublishResult where
  | success (post_id : String) (post_url : String) (urn : String)
      (response : ApiResult)
  | failure (error : String)
  deriving Repr, DecidableEq

namespace LinkedInPublisher

/-- The body of the `try:` block of `LinkedInPublisher.publish_post`
(publisher.py). `Except.error` is a raised exception; the second component
is the list of vendor calls issued. `get_url` models
`frappe.utils.get_url` on the first media attachment. -/
def publish_post_body (get_url : String → String)
    (api : ApiCall → Except String ApiResult)
    (post_doc : ContentPost) (profile : SocialProfile) :
    Except String (String × String × String × ApiResult) × List ApiCall :=
  if falsyStr profile.linkedin_access_token then
    (.error "No LinkedIn access token found for this profile", [])
  else
    let is_company := profile.platform_type == "Company Page"
    let profile_id :=
      if is_company then profile.linkedin_company_id
      else profile.linkedin_profile_id
    if falsyStr profile_id then
      (.error "No LinkedIn profile ID found", [])
    else
      let pid := profile_id.getD ""
      let visibility := orDefaultStr post_doc.linkedin_visibility "PUBLIC"
      let call : Except String ApiCall :=
        if post_doc.content_type == "Text" then
          .ok (.textPost pid post_doc.content visibility is_company)
        else if post_doc.content_type == "Image" then
          match post_doc.media_attachments with
          | [] => .error "No image attachments found for image post"
          | a :: _ =>
            .ok (.imagePost pid post_doc.content (get_url a) visibility
              is_company)
        else if post_doc.content_type == "Link" then
          .ok (.linkPost pid post_doc.content post_doc.link_url
            post_doc.link_title post_doc.link_description visibility
            is_company)
        else
          .error ("Unsupported content type: " ++ post_doc.content_type)
      match call with
      | .error e => (.error e, [])
      | .ok c =>
        match api c with
        | .error e => (.error e, [c])
        | .ok result =>
          let post_urn := result.id
          let post_id := (result.id.splitOn ":").getLastD ""
          let post_url := "https://www.linkedin.com/feed/update/" ++ post_urn
            ++ "/"
          (.ok (post_id, post_url, post_urn, result), [c])

/-- `LinkedInPublisher.publish_post`: the `try`/`except` wrapper that turns
any exception raised in the body into the `{success: False, error}` shape. -/
def publish_post (get_url : String → String)
    (api : ApiCall → Except String ApiResult)
    (post_doc : ContentPost) (profile : SocialProfile) :
    PublishResult × List ApiCall :=
  match publish_post_body get_url api post_doc profile with
  | (.ok (post_id, post_url, post_urn, result), calls) =>
    (.success post_id post_url post_urn result, calls)
  | (.error e, calls) => (.failure e, calls)

end LinkedInPublisher

/-- The result shape of the whitelisted `publish_post_now` endpoint:
`{success: True, message, post_url}` or `{success: False, error}`. -/
inductive PublishNowResult where
  | ok (message : String) (post_url : String)
  | err (error : String)
  deriving Repr, DecidableEq

/-- `publish_post_now` (publisher.py, module level): manual immediate
publish. `has_permission` models `frappe.has_permission`; `pub` is the
publisher applied to the post and its profile; `frappe.throw` raises and is
caught by the surrounding `except`, yielding the error result with the
post unchanged. Note: the failure branch records `failed_at` and
`failure_reason` but does not touch `retry_count`. -/
def publish_post_now (has_permission : Bool)
    (pub : ContentPost → PublishResult) (t : Int) (post : ContentPost) :
    ContentPost × PublishNowResult :=
  if !has_permission then
    (post, .err "Insufficient permissions to publish this post")
  else if !(post.status == "Draft" || post.status == "Failed") then
    (post, .err ("Post cannot be published. Current status: " ++ post.status))
  else if post.approval_status == "Pending" then
    (post, .err "Post is pending approval and cannot be published")
  else
    match pub post with
    | .success pid url urn _ =>
      ({ post with
          status := "Published",
          published_at := some t,
          linkedin_post_id := some pid,
          linkedin_post_url := some url,
          linkedin_urn := some urn },
        .ok "Post published successfully" url)
    | .failure e =>
      ({ post with
          status := "Failed",
          failed_at := some t,
          failure_reason := some e },
        .err e)

/-- `publish_scheduled_post` (publisher.py, module level): the background
job that publishes one post, re-checking that it is still `Scheduled`.
The second component is the publish attempt, `none` when the job was a
silent no-op. -/
def publish_scheduled_post (pub : ContentPost → PublishResult) (t : Int)
    (post : ContentPost) : ContentPost × Option PublishResult :=
  if post.status != "Scheduled" then (post, none)
  else
    match pub post with
    | .success pid url urn r =>
      ({ post with
          status := "Published",
          published_at := some t,
          linkedin_post_id := some pid,
          linkedin_post_url := some url,
          linkedin_urn := some urn },
        some (.success pid url urn r))
    | .failure e =>
      ({ post with
          status := "Failed",
          failed_at := some t,
          failure_reason := some e,
          retry_count := some (post.retry_count.getD 0 + 1) },
        some (.failure e))

namespace LinkedInPublisher

/-- `LinkedInPublisher.retry_failed_post`: resets the failure fields and
status to `Draft`, re-publishes, then records `Published` or `Failed`
(with `retry_count` incremented) from the outcome. -/
def retry_failed_post (pub : ContentPost → PublishResult) (t : Int)
    (post_doc : ContentPost) : ContentPost × PublishResult :=
  let reset := { post_doc with
    status := "Draft",
    failed_at := none,
    failure_reason := none }
  match pub reset with
  | .success pid url urn r =>
    ({ reset with
        status := "Published",
        published_at := some t,
        linkedin_post_id := some pid,
        linkedin_post_url := some url,
        linkedin_urn := some urn },
      .success pid url urn r)
  | .failure e =>
    ({ reset with
        status := "Failed",
        failed_at := some t,
        failure_reason := some e,
        retry_count := some (reset.retry_count.getD 0 + 1) },
      .failure e)

end LinkedInPublisher

/-- The resolved posting configuration `get_posting_settings` returns
(social_settings.py). -/
structure PostingSettings where
  retry_failed_posts : Bool
  max_retry_attempts : Nat
  retry_delay_minutes : Nat
  deriving Repr, DecidableEq

/-- The raw retry-related fields of the `Social Settings` singleton. -/
structure SocialSettings where
  retry_failed_posts : Bool
  max_retry_attempts : Option Nat
  retry_delay_minutes : Option Nat
  deriving Repr, DecidableEq

/-- `get_posting_settings` (social_settings.py): resolves the raw settings
with Python `or` defaults (`max_retry_attempts or 3`,
`retry_delay_minutes or 30`). -/
def get_posting_settings (s : SocialSettings) : PostingSettings :=
  { retry_failed_posts := s.retry_failed_posts,
    max_retry_attempts := orDefaultNat s.max_retry_attempts 3,
    retry_delay_minutes := orDefaultNat s.retry_delay_minutes 30 }

namespace Scheduler

/-- The filter of the due-sweep selection query in
`process_scheduled_posts` (scheduler.py): status `Scheduled`, platform
`LinkedIn`, `scheduled_time <= now` (a NULL time matches nothing), and
`approval_status != "Pending"`. -/
def due_filter (current_time : Int) (p : ContentPost) : Bool :=
  p.status == "Scheduled" && p.platform == "LinkedIn" &&
  (match p.scheduled_time with
    | some s => decide (s ≤ current_time)
    | none => false) &&
  p.approval_status != "Pending"

/-- The per-post body of the due-sweep loop in `process_scheduled_posts`:
re-reads the post, skips it unless it is still `Scheduled` with
`approval_status` not `Pending`, otherwise publishes and records the
outcome. The second component is the publish attempt, `none` when the
post was skipped. -/
def process_post_step (pub : ContentPost → PublishResult) (t : Int)
    (post : ContentPost) : ContentPost × Option PublishResult :=
  if post.status != "Scheduled" || post.approval_status == "Pending" then
    (post, none)
  else
    match pub post with
    | .success pid url urn r =>
      ({ post with
          status := "Published",
          published_at := some t,
          linkedin_post_id := some pid,
          linkedin_post_url := some url,
          linkedin_urn := some urn },
        some (.success pid url urn r))
    | .failure e =>
      ({ post with
          status := "Failed",
          failed_at := some t,
          failure_reason := some e,
          retry_count := some (post.retry_count.getD 0 + 1) },
        some (.failure e))

/-- `process_scheduled_posts` (scheduler.py) over a persisted store of
posts: each selected due post is run through the per-post step; the rest
are untouched. -/
def process_scheduled_posts (pub : ContentPost → PublishResult) (t : Int)
    (db : List ContentPost) : List ContentPost :=
  db.map (fun p => if due_filter t p then (process_post_step pub t p).1 else p)

/-- `schedule_retry_if_needed` (scheduler.py): returns the scheduled time
of the enqueued retry job (`add_minutes(now, retry_delay)`), or `none`
when no retry is enqueued. -/
def schedule_retry_if_needed (settings : PostingSettings) (t : Int)
    (post_doc : ContentPost) : Option Int :=
  if !settings.retry_failed_posts then none
  else
    let max_attempts := settings.max_retry_attempts
    let retry_delay := settings.retry_delay_minutes
    let current_retries := post_doc.retry_count.getD 0
    if current_retries < max_attempts then some (t + retry_delay * 60)
    else none

/-- `retry_failed_post` (scheduler.py): the delayed retry job; a silent
no-op (`none`) unless the freshly re-read status is still `Failed`. -/
def retry_failed_post (pub : ContentPost → PublishResult) (t : Int)
    (post : ContentPost) : ContentPost × Option PublishResult :=
  if post.status != "Failed" then (post, none)
  else
    let pr := LinkedInPublisher.retry_failed_post pub t post
    (pr.1, some pr.2)

end Scheduler

namespace ContentPost

/-- One of the errors `ContentPost.validate_content_requirements` can
raise with `frappe.throw`. -/
inductive ValidationError where
  | linkUrlRequired
  | linkedinTooLong
  deriving Repr, DecidableEq

/-- `ContentPost.validate_content_requirements` (content_post.py): raises
(`some error`) when a Link post has no URL, then when a LinkedIn post's
content exceeds 3000 characters; otherwise passes (`none`). -/
def validate_content_requirements (self : ContentPost) :
    Option ValidationError :=
  if self.content_type == "Link" && falsyStr self.link_url then
    some .linkUrlRequired
  else if self.platform == "LinkedIn" && (self.content.getD "").length > 3000
  then some .linkedinTooLong
  else none

/-- `ContentPost.handle_publish_failure` (content_post.py): records the
failure, increments `retry_count`, and when the new count is still below
the hard-coded limit 3 sets `next_retry_at = now + count * 300` seconds
and enqueues a retry with that delay (returned as `some delay`). -/
def handle_publish_failure (t : Int) (error_message : String)
    (self : ContentPost) : ContentPost × Option Nat :=
  let rc := self.retry_count.getD 0 + 1
  let p := { self with
    status := "Failed",
    failed_at := some t,
    failure_reason := some error_message,
    retry_count := some rc }
  if rc < 3 then
    let retry_delay := rc * 300
    ({p with next_retry_at := some (t + retry_delay)}, some retry_delay)
  else (p, none)

end ContentPost

/-- An HTTP request issued by the vendor client; the list of these an
operation returns makes "no internal retries" statable. -/
structure HttpRequest where
  method : String
  url : String
  deriving Repr, DecidableEq

/-- The HTTP response an operation's single request receives:
status code, raw text, and the parsed JSON body of type `β`. -/
structure HttpResponse (β : Type) where
  status_code : Nat
  text : String
  body : β
  deriving Repr, DecidableEq

/-- The engagement dict built by `get_post_engagement_stats`, and more
generally the `analytics_data` dict consumed by the analytics manager:
a field is `none` when the key is absent, and `.get(key, 0)` is
`field.getD 0`. -/
structure AnalyticsData where
  likes : Option Nat
  comments : Option Nat
  shares : Option Nat
  reposts : Option Nat
  impressions : Option Nat
  clicks : Option Nat
  deriving Repr, DecidableEq

/-- The keys of `/socialActions/{urn}` that `get_post_engagement_stats`
reads: `data.get(k, {}).get("summary", 0)` for likes/comments/shares. -/
structure SocialActionsBody where
  likes_summary : Nat
  comments_summary : Nat
  shares_summary : Nat
  deriving Repr, DecidableEq

namespace LinkedInAPI

/-- `self.base_url` of the vendor client. -/
def base_url : String := "https://api.linkedin.com/v2"

/-- `LinkedInAPI.create_text_post` (api.py): one POST to `/ugcPosts`;
a status outside {200, 201} raises an exception carrying the raw
response text, otherwise the parsed body is returned. -/
def create_text_post (resp : HttpResponse ApiResult) :
    Except String ApiResult × List HttpRequest :=
  (if resp.status_code != 200 && resp.status_code != 201 then
    .error ("Failed to create post: " ++ resp.text)
  else .ok resp.body,
  [{ method := "POST", url := base_url ++ "/ugcPosts" }])

/-- `LinkedInAPI.get_profile_info` (api.py): one GET to `/me`; a non-200
status raises an exception carrying the raw response text. -/
def get_profile_info (resp : HttpResponse ApiResult) :
    Except String ApiResult × List HttpRequest :=
  (if resp.status_code != 200 then
    .error ("Failed to get profile info: " ++ resp.text)
  else .ok resp.body,
  [{ method := "GET",
     url := base_url ++
       "/me?projection=(id,firstName,lastName,profilePicture(displayImage~:playableStreams))" }])

/-- `LinkedInAPI.get_company_info` (api.py): one GET to
`/organizations/{id}`; a non-200 status raises an exception carrying the
raw response text. -/
def get_company_info (company_id : String) (resp : HttpResponse ApiResult) :
    Except String ApiResult × List HttpRequest :=
  (if resp.status_code != 200 then
    .error ("Failed to get company info: " ++ resp.text)
  else .ok resp.body,
  [{ method := "GET",
     url := base_url ++ "/organizations/" ++ company_id ++
       "?projection=(id,name,logo(elements*))" }])

/-- `LinkedInAPI.get_post_engagement_stats` (api.py): one GET to
`/socialActions/{urn}`. On a non-200 status it returns the empty dict
(`none`) without raising; on 200 it returns the stats dict with
`reposts` hard-coded to 0 and no impressions/clicks keys. The `Except`
layer records that no exception is raised on either path. -/
def get_post_engagement_stats (post_urn : String)
    (resp : HttpResponse SocialActionsBody) :
    Except String (Option AnalyticsData) × List HttpRequest :=
  (if resp.status_code != 200 then .ok none
   else .ok (some
     { likes := some resp.body.likes_summary,
       comments := some resp.body.comments_summary,
       shares := some resp.body.shares_summary,
       reposts := some 0,
       impressions := none,
       clicks := none }),
  [{ method := "GET", url := base_url ++ "/socialActions/" ++ post_urn }])

end LinkedInAPI

/-- One row of the `LinkedIn Analytics` doctype. -/
structure AnalyticsRecord where
  content_post : String
  social_profile : Option String
  linkedin_post_id : Option String
  linkedin_urn : Option String
  date : Nat
  likes : Nat
  comments : Nat
  shares : Nat
  reposts : Nat
  impressions : Nat
  clicks : Nat
  engagement_rate : ℚ
  last_synced : Int
  raw_data : AnalyticsData
  deriving Repr, DecidableEq

/-- Rounding to two decimal places, the `round(x, 2)` both the source and
the spec formula use. -/
def round2 (q : ℚ) : ℚ := (round (q * 100) : ℚ) / 100

namespace LinkedInAnalytics

/-- `LinkedInAnalytics.calculate_engagement_rate` (analytics.py): 0 when
impressions are 0, else `round((total_engagement / impressions) * 100, 2)`
where total engagement is likes + comments + shares + reposts. -/
def calculate_engagement_rate (analytics_data : AnalyticsData) : ℚ :=
  let impressions := analytics_data.impressions.getD 0
  if impressions = 0 then 0
  else
    let total_engagement := analytics_data.likes.getD 0 +
      analytics_data.comments.getD 0 + analytics_data.shares.getD 0 +
      analytics_data.reposts.getD 0
    round2 (((total_engagement : ℚ) / (impressions : ℚ)) * 100)

/-- The `(content_post, date)` key match used by the existing-record
lookup in `create_analytics_record`. -/
def matches_key (post_name : String) (today : Nat) (r : AnalyticsRecord) :
    Bool :=
  r.content_post == post_name && r.date == today

/-- The field overwrite the update branch of `create_analytics_record`
performs on an existing row: metric fields, engagement rate, `last_synced`
and `raw_data`; the key and ownership fields are untouched. -/
def apply_sync (analytics_data : AnalyticsData) (t : Int)
    (r : AnalyticsRecord) : AnalyticsRecord :=
  { r with
    likes := analytics_data.likes.getD 0,
    comments := analytics_data.comments.getD 0,
    shares := analytics_data.shares.getD 0,
    reposts := analytics_data.reposts.getD 0,
    impressions := analytics_data.impressions.getD 0,
    clicks := analytics_data.clicks.getD 0,
    engagement_rate := calculate_engagement_rate analytics_data,
    last_synced := t,
    raw_data := analytics_data }

/-- In-place update of the first row matching `f` (the row
`frappe.db.get_value` found), leaving every other row untouched. -/
def update_first (f : AnalyticsRecord → Bool)
    (g : AnalyticsRecord → AnalyticsRecord) :
    List AnalyticsRecord → List AnalyticsRecord
  | [] => []
  | r :: rs => if f r then g r :: rs else r :: update_first f g rs

/-- The fresh row the insert branch of `create_analytics_record` builds. -/
def new_record (post_doc : ContentPost) (analytics_data : AnalyticsData)
    (today : Nat) (t : Int) : AnalyticsRecord :=
  { content_post := post_doc.name,
    social_profile := post_doc.social_profile,
    linkedin_post_id := post_doc.linkedin_post_id,
    linkedin_urn := post_doc.linkedin_urn,
    date := today,
    likes := analytics_data.likes.getD 0,
    comments := analytics_data.comments.getD 0,
    shares := analytics_data.shares.getD 0,
    reposts := analytics_data.reposts.getD 0,
    impressions := analytics_data.impressions.getD 0,
    clicks := analytics_data.clicks.getD 0,
    engagement_rate := calculate_engagement_rate analytics_data,
    last_synced := t,
    raw_data := analytics_data }

/-- `LinkedInAnalytics.create_analytics_record` (analytics.py): upsert
keyed by `(content_post, today)` on the persisted list of rows — if a row
for the key exists, overwrite its metric fields and `last_synced` in
place; otherwise insert exactly one new row. -/
def create_analytics_record (post_doc : ContentPost)
    (analytics_data : AnalyticsData) (today : Nat) (t : Int)
    (db : List AnalyticsRecord) : List AnalyticsRecord :=
  if (db.find? (matches_key post_doc.name today)).isSome then
    update_first (matches_key post_doc.name today) (apply_sync analytics_data t)
      db
  else db ++ [new_record post_doc analytics_data today t]

end LinkedInAnalytics

/-- The number of analytics rows stored for the key `(post, day)`. -/
def keyCount (post_name : String) (today : Nat)
    (db : List AnalyticsRecord) : Nat :=
  (db.filter (LinkedInAnalytics.matches_key post_name today)).length

/-- The engagement-rate formula exactly as the specification words it:
`round(100 × (likes+comments+shares+reposts) / impressions, 2)`, and 0
when `impressions = 0`. Stated separately from the code-derived
`calculate_engagement_rate` so the two can be compared. -/
def spec_engagement_rate (likes comments shares reposts impressions : Nat) :
    ℚ :=
  if impressions = 0 then 0
  else round2 ((100 * ((likes : ℚ) + comments + shares + reposts)) /
    (impressions : ℚ))

namespace LinkedInAnalytics

theorem matches_key_apply_sync (n : String) (d : Nat) (a : AnalyticsData)
    (t : Int) (r : AnalyticsRecord) :
    matches_key n d (apply_sync a t r) = matches_key n d r := rfl

theorem update_first_filter_length (f : AnalyticsRecord → Bool)
    (g : AnalyticsRecord → AnalyticsRecord) (hg : ∀ r, f (g r) = f r) :
    ∀ l : List AnalyticsRecord,
      ((update_first f g l).filter f).length = (l.filter f).length := by
  intro l
  induction l with
  | nil => rfl
  | cons r rs ih =>
    by_cases h : f r
    · simp [update_first, h, hg]
    · simp [update_first, h, ih]

theorem update_first_find (f : AnalyticsRecord → Bool)
    (g : AnalyticsRecord → AnalyticsRecord) (hg : ∀ r, f (g r) = f r) :
    ∀ (l : List AnalyticsRecord) (r : AnalyticsRecord), l.find? f = some r →
      (update_first f g l).find? f = some (g r) := by
  intro l
  induction l with
  | nil => intro r h; simp [List.find?] at h
  | cons x xs ih =>
    intro r h
    by_cases hx : f x
    · rw [List.find?_cons_of_pos _ hx] at h
      cases h
      rw [update_first, if_pos hx]
      exact List.find?_cons_of_pos _ (by rw [hg x]; exact hx)
    · rw [List.find?_cons_of_neg _ hx] at h
      rw [update_first, if_neg hx]
      rw [List.find?_cons_of_neg _ hx]
      exact ih r h

theorem mem_update_first (f : AnalyticsRecord → Bool)
    (g : AnalyticsRecord → AnalyticsRecord) :
    ∀ (l : List AnalyticsRecord), ∀ r ∈ update_first f g l,
      r ∈ l ∨ ∃ x ∈ l, r = g x := by
  intro l
  induction l with
  | nil => intro r h; simp [update_first] at h
  | cons x xs ih =>
    intro r h
    by_cases hx : f x
    · rw [update_first, if_pos hx] at h
      rcases List.mem_cons.mp h with h1 | h2
      · exact Or.inr ⟨x, List.mem_cons_self x xs, h1⟩
      · exact Or.inl (List.mem_cons_of_mem x h2)
    · rw [update_first, if_neg hx] at h
      rcases List.mem_cons.mp h with h1 | h2
      · exact Or.inl (h1 ▸ List.mem_cons_self x xs)
      · rcases ih r h2 with h3 | ⟨y, hy, hr⟩
        · exact Or.inl (List.mem_cons_of_mem x h3)
        · exact Or.inr ⟨y, List.mem_cons_of_mem x hy, hr⟩

theorem find_append_singleton (f : AnalyticsRecord → Bool)
    (y : AnalyticsRecord) (hy : f y = true) :
    ∀ l : List AnalyticsRecord, (∀ x ∈ l, ¬ f x) →
      (l ++ [y]).find? f = some y := by
  intro l
  induction l with
  | nil => intro _; exact List.find?_cons_of_pos _ hy
  | cons x xs ih =>
    intro h
    have hx : ¬ f x = true := h x (List.mem_cons_self x xs)
    rw [List.cons_append, List.find?_cons_of_neg _ hx]
    exact ih (fun z hz => h z (List.mem_cons_of_mem x hz))

end LinkedInAnalytics

namespace LinkedInAnalytics

theorem new_record_matches (post_doc : ContentPost) (d : AnalyticsData)
    (today : Nat) (t : Int) :
    matches_key post_doc.name today (new_record post_doc d today t) = true := by
  simp [matches_key, new_record]

theorem create_analytics_record_keyCount (post_doc : ContentPost)
    (d : AnalyticsData) (today : Nat) (t : Int) (db : List AnalyticsRecord)
    (h : keyCount post_doc.name today db ≤ 1) :
    keyCount post_doc.name today
      (create_analytics_record post_doc d today t db) = 1 := by
  rw [create_analytics_record]
  by_cases hf : (db.find? (matches_key post_doc.name today)).isSome
  · rw [if_pos hf]
    rcases Option.isSome_iff_exists.mp hf with ⟨r, hr⟩
    have hmem : r ∈ db := List.mem_of_find?_eq_some hr
    have hmatch : matches_key post_doc.name today r = true :=
      List.find?_some hr
    have hge : 1 ≤ keyCount post_doc.name today db := by
      have : r ∈ db.filter (matches_key post_doc.name today) :=
        List.mem_filter.mpr ⟨hmem, hmatch⟩
      have hlen := List.length_pos.mpr (List.ne_nil_of_mem this)
      unfold keyCount
      omega
    have heq : keyCount post_doc.name today db = 1 := le_antisymm h hge
    unfold keyCount
    rw [update_first_filter_length _ _
      (fun r => matches_key_apply_sync post_doc.name today d t r)]
    exact heq
  · rw [if_neg hf]
    have hnone : db.find? (matches_key post_doc.name today) = none :=
      Option.not_isSome_iff_eq_none.mp hf
    have hall : ∀ x ∈ db, ¬ matches_key post_doc.name today x := by
      intro x hx
      exact List.find?_eq_none.mp hnone x hx
    have hfil : db.filter (matches_key post_doc.name today) = [] :=
      List.filter_eq_nil_iff.mpr hall
    unfold keyCount
    rw [List.filter_append, hfil]
    simp [new_record_matches]

theorem create_analytics_record_stores (post_doc : ContentPost)
    (d : AnalyticsData) (today : Nat) (t : Int) (db : List AnalyticsRecord) :
    ∃ r, (create_analytics_record post_doc d today t db).find?
        (matches_key post_doc.name today) = some r ∧
      r.likes = d.likes.getD 0 ∧ r.comments = d.comments.getD 0 ∧
      r.shares = d.shares.getD 0 ∧ r.reposts = d.reposts.getD 0 ∧
      r.impressions = d.impressions.getD 0 ∧ r.clicks = d.clicks.getD 0 ∧
      r.engagement_rate = calculate_engagement_rate d ∧
      r.last_synced = t ∧ r.raw_data = d := by
  rw [create_analytics_record]
  by_cases hf : (db.find? (matches_key post_doc.name today)).isSome
  · rw [if_pos hf]
    rcases Option.isSome_iff_exists.mp hf with ⟨r, hr⟩
    refine ⟨apply_sync d t r, ?_, by simp [apply_sync]⟩
    exact update_first_find _ _
      (fun r => matches_key_apply_sync post_doc.name today d t r) db r hr
  · rw [if_neg hf]
    have hnone : db.find? (matches_key post_doc.name today) = none :=
      Option.not_isSome_iff_eq_none.mp hf
    refine ⟨new_record post_doc d today t, ?_, by simp [new_record]⟩
    exact find_append_singleton _ _ (new_record_matches post_doc d today t) db
      (List.find?_eq_none.mp hnone)

end LinkedInAnalytics

/-- A concrete draft post used to instantiate theorems at explicit inputs. -/
def testPost : ContentPost :=
  { name := "POST-0001", platform := "LinkedIn", title := "hello",
    content := some "hello world", content_type := "Text", link_url := none,
    link_title := none, link_description := none, linkedin_visibility := none,
    media_attachments := [], social_profile := some "PROF-0001",
    status := "Draft", approval_status := "Not Required",
    publish_now := false, scheduled_time := none, published_at := none,
    failed_at := none, failure_reason := none, retry_count := none,
    next_retry_at := none, linkedin_post_id := none,
    linkedin_post_url := none, linkedin_urn := none }

/-- Concrete engagement data: the worked example of the specification. -/
def dataA : AnalyticsData :=
  { likes := some 10, comments := some 5, shares := some 5,
    reposts := some 0, impressions := some 200, clicks := none }

/-- A second concrete engagement sample, used as the later sync's data. -/
def dataB : AnalyticsData :=
  { likes := some 12, comments := some 6, shares := some 7,
    reposts := some 1, impressions := some 300, clicks := some 4 }

/-- C1: the analytics sync is an idempotent upsert keyed by (post, day):
from a store holding at most one snapshot for the key, one sync leaves
exactly one row for (post, today), a second sync on the same day still
leaves exactly one row (no duplicate insert), and that row carries the
second call's metric fields and `last_synced`. -/
theorem analytics_upsert_idempotent (post_doc : ContentPost)
    (d1 d2 : AnalyticsData) (today : Nat) (t1 t2 : Int)
    (db : List AnalyticsRecord)
    (h : keyCount post_doc.name today db ≤ 1) :
    keyCount post_doc.name today
      (LinkedInAnalytics.create_analytics_record post_doc d1 today t1 db)
      = 1 ∧
    keyCount post_doc.name today
      (LinkedInAnalytics.create_analytics_record post_doc d2 today t2
        (LinkedInAnalytics.create_analytics_record post_doc d1 today t1 db))
      = 1 ∧
    ∃ r, (LinkedInAnalytics.create_analytics_record post_doc d2 today t2
        (LinkedInAnalytics.create_analytics_record post_doc d1 today t1
          db)).find? (LinkedInAnalytics.matches_key post_doc.name today)
        = some r ∧
      r.likes = d2.likes.getD 0 ∧ r.comments = d2.comments.getD 0 ∧
      r.shares = d2.shares.getD 0 ∧ r.reposts = d2.reposts.getD 0 ∧
      r.impressions = d2.impressions.getD 0 ∧
      r.clicks = d2.clicks.getD 0 ∧
      r.engagement_rate = LinkedInAnalytics.calculate_engagement_rate d2 ∧
      r.last_synced = t2 ∧ r.raw_data = d2 := by
  have h1 := LinkedInAnalytics.create_analytics_record_keyCount post_doc d1
    today t1 db h
  refine ⟨h1, ?_, ?_⟩
  · exact LinkedInAnalytics.create_analytics_record_keyCount post_doc d2
      today t2 _ (le_of_eq h1)
  · exact LinkedInAnalytics.create_analytics_record_stores post_doc d2
      today t2 _

/-- Witness for C1 at a concrete post, two concrete data samples and the
empty store. -/
theorem analytics_upsert_idempotent_witness :
    keyCount testPost.name 7 (LinkedInAnalytics.create_analytics_record
      testPost dataB 7 2 (LinkedInAnalytics.create_analytics_record
        testPost dataA 7 1 [])) = 1 :=
  (analytics_upsert_idempotent testPost dataA dataB 7 1 2 [] (by decide)).2.1

/-- The code's engagement-rate computation coincides with the
specification's formula; shared by the claims about the rate. -/
theorem calculate_engagement_rate_eq_spec (d : AnalyticsData) :
    LinkedInAnalytics.calculate_engagement_rate d =
      spec_engagement_rate (d.likes.getD 0) (d.comments.getD 0)
        (d.shares.getD 0) (d.reposts.getD 0) (d.impressions.getD 0) := by
  simp only [LinkedInAnalytics.calculate_engagement_rate,
    spec_engagement_rate]
  by_cases h : d.impressions.getD 0 = 0
  · simp [h]
  · rw [if_neg h, if_neg h]
    congr 1
    push_cast
    ring

/-- C5: the computed engagement rate equals
`round(100 * (likes+comments+shares+reposts) / impressions, 2)` whenever
impressions are positive, equals 0 when impressions are 0 (no division by
zero), and the spec's worked example (impressions 200, likes 10,
comments 5, shares 5, reposts 0) yields 10. -/
theorem engagement_rate_correct (d : AnalyticsData) :
    LinkedInAnalytics.calculate_engagement_rate d =
      spec_engagement_rate (d.likes.getD 0) (d.comments.getD 0)
        (d.shares.getD 0) (d.reposts.getD 0) (d.impressions.getD 0) ∧
    (d.impressions.getD 0 = 0 →
      LinkedInAnalytics.calculate_engagement_rate d = 0) ∧
    LinkedInAnalytics.calculate_engagement_rate dataA = 10 := by
  refine ⟨calculate_engagement_rate_eq_spec d, ?_, ?_⟩
  · intro h
    simp [LinkedInAnalytics.calculate_engagement_rate, h]
  · norm_num [LinkedInAnalytics.calculate_engagement_rate, dataA, round2]

/-- Witness for C5: zero impressions give rate 0 at an explicit input. -/
theorem engagement_rate_correct_witness :
    LinkedInAnalytics.calculate_engagement_rate
      { likes := some 3, comments := some 1, shares := none,
        reposts := none, impressions := none, clicks := none } = 0 :=
  (engagement_rate_correct
    { likes := some 3, comments := some 1, shares := none,
      reposts := none, impressions := none, clicks := none }).2.1 rfl

/-- A publisher oracle that always fails, for explicit instantiations. -/
def failPub : ContentPost → PublishResult :=
  fun _ => PublishResult.failure "LinkedIn API error"

/-- A publisher oracle that always succeeds, for explicit instantiations. -/
def okPub : ContentPost → PublishResult :=
  fun _ => PublishResult.success "6001" "https://example.com/6001"
    "urn:li:share:6001" { id := "urn:li:share:6001" }

/-- C2 (amended): the due-sweep failure branch, the background publish job
and `handle_publish_failure` each record a `failure_reason` and increment
`retry_count` (so the failed post satisfies `failure_reason ≠ null ∧
retry_count ≥ 1`); the manual `publish_post_now` entry point records a
`failure_reason` but leaves `retry_count` unchanged, so a post failed
through it alone can keep `retry_count = 0`. -/
theorem failed_paths_record_reason (t : Int) (e : String)
    (pub : ContentPost → PublishResult) (p : ContentPost) :
    (p.status = "Scheduled" → p.approval_status ≠ "Pending" →
      pub p = PublishResult.failure e →
      ((Scheduler.process_post_step pub t p).1.status = "Failed" ∧
       (Scheduler.process_post_step pub t p).1.failure_reason = some e ∧
       1 ≤ (Scheduler.process_post_step pub t p).1.retry_count.getD 0)) ∧
    (p.status = "Scheduled" → pub p = PublishResult.failure e →
      ((publish_scheduled_post pub t p).1.status = "Failed" ∧
       (publish_scheduled_post pub t p).1.failure_reason = some e ∧
       1 ≤ (publish_scheduled_post pub t p).1.retry_count.getD 0)) ∧
    ((ContentPost.handle_publish_failure t e p).1.status = "Failed" ∧
     (ContentPost.handle_publish_failure t e p).1.failure_reason = some e ∧
     1 ≤ (ContentPost.handle_publish_failure t e p).1.retry_count.getD 0) ∧
    ((p.status = "Draft" ∨ p.status = "Failed") →
      p.approval_status ≠ "Pending" → pub p = PublishResult.failure e →
      ((publish_post_now true pub t p).1.status = "Failed" ∧
       (publish_post_now true pub t p).1.failure_reason = some e ∧
       (publish_post_now true pub t p).1.retry_count = p.retry_count)) := by
  refine ⟨?_, ?_, ?_, ?_⟩
  · intro hs ha hpub
    simp [Scheduler.process_post_step, hs, ha, hpub]
  · intro hs hpub
    simp [publish_scheduled_post, hs, hpub]
  · rw [ContentPost.handle_publish_failure]
    split
    · exact ⟨rfl, rfl, by simp⟩
    · exact ⟨rfl, rfl, by simp⟩
  · intro hs ha hpub
    have hcond : (p.status == "Draft" || p.status == "Failed") = true := by
      rcases hs with h | h <;> simp [h]
    simp [publish_post_now, hcond, ha, hpub]

/-- C2 counterexample: manually publishing a draft post (retry count 0)
through `publish_post_now` against a failing vendor leaves the post
`Failed` with `retry_count` still 0, violating
`status = Failed → retry_count ≥ 1`. -/
theorem failed_invariant_counterexample :
    (publish_post_now true failPub 0 testPost).1.status = "Failed" ∧
    ¬ 1 ≤ (publish_post_now true failPub 0 testPost).1.retry_count.getD 0 := by
  decide

/-- Witness for C2 (amended): the due-sweep failure branch at a concrete
scheduled post yields a failed post with reason recorded and retry count
at least 1, and the manual path leaves the retry count untouched. -/
theorem failed_paths_record_reason_witness :
    (Scheduler.process_post_step failPub 0
      { testPost with status := "Scheduled" }).1.status = "Failed" ∧
    (Scheduler.process_post_step failPub 0
      { testPost with status := "Scheduled" }).1.failure_reason =
      some "LinkedIn API error" ∧
    1 ≤ (Scheduler.process_post_step failPub 0
      { testPost with status := "Scheduled" }).1.retry_count.getD 0 :=
  (failed_paths_record_reason 0 "LinkedIn API error" failPub
    { testPost with status := "Scheduled" }).1 rfl (by decide) rfl

/-- C3: retry backoff. With `n` the attempt number just recorded
(the incremented `retry_count`), `handle_publish_failure` schedules the
retry with delay exactly `n * 300` seconds (so attempt 1 fires 300s and
attempt 2 fires 600s after the failure) whenever `n < 3`, and schedules
nothing once the count reaches 3, the post staying `Failed`; the
scheduler path `schedule_retry_if_needed`, under the default settings
(retries enabled, unset maximum and delay), schedules the retry at
`now + 1800` seconds when `retry_count < 3` and nothing once
`retry_count ≥ 3`. -/
theorem retry_backoff_policy (t : Int) (e : String) (p : ContentPost)
    (raw : SocialSettings) :
    ((ContentPost.handle_publish_failure t e p).1.status = "Failed" ∧
     (ContentPost.handle_publish_failure t e p).1.retry_count =
       some (p.retry_count.getD 0 + 1)) ∧
    (p.retry_count.getD 0 + 1 < 3 →
      (ContentPost.handle_publish_failure t e p).2 =
        some ((p.retry_count.getD 0 + 1) * 300) ∧
      (ContentPost.handle_publish_failure t e p).1.next_retry_at =
        some (t + ((p.retry_count.getD 0 + 1 : Nat) : Int) * 300)) ∧
    (3 ≤ p.retry_count.getD 0 + 1 →
      (ContentPost.handle_publish_failure t e p).2 = none) ∧
    (p.retry_count.getD 0 = 0 →
      (ContentPost.handle_publish_failure t e p).2 = some 300) ∧
    (p.retry_count.getD 0 = 1 →
      (ContentPost.handle_publish_failure t e p).2 = some 600) ∧
    (raw.retry_failed_posts = true → raw.max_retry_attempts = none →
      raw.retry_delay_minutes = none →
      (p.retry_count.getD 0 < 3 →
        Scheduler.schedule_retry_if_needed (get_posting_settings raw) t p =
          some (t + 1800)) ∧
      (3 ≤ p.retry_count.getD 0 →
        Scheduler.schedule_retry_if_needed (get_posting_settings raw) t p =
          none)) := by
  refine ⟨?_, ?_, ?_, ?_, ?_, ?_⟩
  · rw [ContentPost.handle_publish_failure]
    split
    · exact ⟨rfl, rfl⟩
    · exact ⟨rfl, rfl⟩
  · intro h
    rw [ContentPost.handle_publish_failure]
    rw [if_pos h]
    refine ⟨rfl, ?_⟩
    simp [mul_comm]
  · intro h
    rw [ContentPost.handle_publish_failure, if_neg (by omega)]
  · intro h
    rw [ContentPost.handle_publish_failure, if_pos (by omega), h]
  · intro h
    rw [ContentPost.handle_publish_failure, if_pos (by omega), h]
  · intro hen hmax hdel
    constructor
    · intro h
      simp [Scheduler.schedule_retry_if_needed, get_posting_settings, hen,
        hmax, hdel, orDefaultNat, h]
    · intro h
      simp [Scheduler.schedule_retry_if_needed, get_posting_settings, hen,
        hmax, hdel, orDefaultNat]
      omega

/-- Witness for C3: a first failure (retry count 0) schedules the retry
with a 300-second delay, and a post already at retry count 3 gets none. -/
theorem retry_backoff_policy_witness :
    (ContentPost.handle_publish_failure 0 "boom" testPost).2 = some 300 ∧
    (ContentPost.handle_publish_failure 0 "boom"
      { testPost with retry_count := some 3 }).2 = none :=
  ⟨(retry_backoff_policy 0 "boom" testPost
      ⟨true, none, none⟩).2.2.2.1 rfl,
   (retry_backoff_policy 0 "boom" { testPost with retry_count := some 3 }
      ⟨true, none, none⟩).2.2.1 (by decide)⟩

/-- C4: approval gating. A post with `approval_status = "Pending"` is
excluded by the due-sweep's selection query, is skipped unchanged by the
per-post re-check of the sweep, and is rejected unchanged by the manual
`publish_post_now` entry point — so neither path ever moves it to
`Published`, whatever its scheduled time and whatever the vendor would
answer. -/
theorem approval_gating (pub : ContentPost → PublishResult) (t : Int)
    (perm : Bool) (p : ContentPost) (h : p.approval_status = "Pending") :
    Scheduler.due_filter t p = false ∧
    Scheduler.process_post_step pub t p = (p, none) ∧
    (publish_post_now perm pub t p).1 = p ∧
    ∃ e, (publish_post_now perm pub t p).2 = PublishNowResult.err e := by
  refine ⟨?_, ?_, ?_⟩
  · simp [Scheduler.due_filter, h]
  · simp [Scheduler.process_post_step, h]
  · rw [publish_post_now]
    cases perm with
    | false => exact ⟨rfl, _, rfl⟩
    | true =>
      simp only [Bool.not_true, Bool.false_eq_true, if_false]
      split
      · exact ⟨rfl, _, rfl⟩
      · rw [if_pos (by simp [h])]
        exact ⟨rfl, _, rfl⟩

/-- A concrete overdue post stuck in pending approval. -/
def pendingPost : ContentPost :=
  { testPost with
    status := "Scheduled",
    approval_status := "Pending",
    scheduled_time := some (-100) }

/-- Witness for C4 at a concrete pending post whose scheduled time has
long passed, against a vendor that would succeed. -/
theorem approval_gating_witness :
    Scheduler.due_filter 0 pendingPost = false ∧
    Scheduler.process_post_step okPub 0 pendingPost = (pendingPost, none) :=
  ⟨(approval_gating okPub 0 true pendingPost rfl).1,
   (approval_gating okPub 0 true pendingPost rfl).2.1⟩

/-- Counts an invocation outcome as an effective publish: 1 when the
operation attempted a publish and the vendor succeeded, 0 otherwise. -/
def effectivePublish : ContentPost × Option PublishResult → Nat
  | (_, some (PublishResult.success _ _ _ _)) => 1
  | _ => 0

theorem effectivePublish_le_one (x : ContentPost × Option PublishResult) :
    effectivePublish x ≤ 1 := by
  rcases x with ⟨q, r⟩
  cases r with
  | none => exact Nat.zero_le 1
  | some pr => cases pr <;> simp [effectivePublish]

theorem process_post_step_skip (pub : ContentPost → PublishResult)
    (t : Int) (p : ContentPost) (h : p.status ≠ "Scheduled") :
    Scheduler.process_post_step pub t p = (p, none) := by
  simp [Scheduler.process_post_step, h]

theorem retry_failed_post_skip (pub : ContentPost → PublishResult)
    (t : Int) (p : ContentPost) (h : p.status ≠ "Failed") :
    Scheduler.retry_failed_post pub t p = (p, none) := by
  simp [Scheduler.retry_failed_post, h]

theorem process_post_step_status (pub : ContentPost → PublishResult)
    (t : Int) (p : ContentPost) :
    (Scheduler.process_post_step pub t p).2 = none ∧
      (Scheduler.process_post_step pub t p).1 = p ∨
    (Scheduler.process_post_step pub t p).1.status = "Published" ∧
      (∃ a b c d, (Scheduler.process_post_step pub t p).2 =
        some (PublishResult.success a b c d)) ∨
    (Scheduler.process_post_step pub t p).1.status = "Failed" ∧
      (∃ e, (Scheduler.process_post_step pub t p).2 =
        some (PublishResult.failure e)) := by
  rw [Scheduler.process_post_step]
  split
  · exact Or.inl ⟨rfl, rfl⟩
  · cases hpub : pub p with
    | success a b c d =>
      exact Or.inr (Or.inl ⟨rfl, a, b, c, d, rfl⟩)
    | failure e => exact Or.inr (Or.inr ⟨rfl, e, rfl⟩)

theorem retry_failed_post_status (pub : ContentPost → PublishResult)
    (t : Int) (p : ContentPost) :
    (Scheduler.retry_failed_post pub t p).2 = none ∧
      (Scheduler.retry_failed_post pub t p).1 = p ∨
    (Scheduler.retry_failed_post pub t p).1.status = "Published" ∧
      (∃ a b c d, (Scheduler.retry_failed_post pub t p).2 =
        some (PublishResult.success a b c d)) ∨
    (Scheduler.retry_failed_post pub t p).1.status = "Failed" ∧
      (∃ e, (Scheduler.retry_failed_post pub t p).2 =
        some (PublishResult.failure e)) := by
  rw [Scheduler.retry_failed_post]
  split
  · exact Or.inl ⟨rfl, rfl⟩
  · cases hpub : pub { p with
        status := "Draft"
        failed_at := none
        failure_reason := none } with
    | success a b c d =>
      refine Or.inr (Or.inl ⟨?_, a, b, c, d, ?_⟩) <;>
        simp [LinkedInPublisher.retry_failed_post, hpub]
    | failure e =>
      refine Or.inr (Or.inr ⟨?_, e, ?_⟩) <;>
        simp [LinkedInPublisher.retry_failed_post, hpub]

theorem effectivePublish_none (x : ContentPost × Option PublishResult)
    (h : x.2 = none) : effectivePublish x = 0 := by
  rcases x with ⟨q, r⟩
  cases h
  rfl

theorem effectivePublish_failure (x : ContentPost × Option PublishResult)
    (e : String) (h : x.2 = some (PublishResult.failure e)) :
    effectivePublish x = 0 := by
  rcases x with ⟨q, r⟩
  cases h
  rfl

/-- C6: stale-status invocations are silent no-ops. The due-sweep's
per-post step on a post whose re-read status is no longer `Scheduled`
(for instance reverted to `Draft`) publishes nothing and leaves the post
unchanged, the retry job likewise when the re-read status is no longer
`Failed`; consequently two deliveries of the same sweep step — or of the
same retry job — produce at most one effective publish. -/
theorem stale_status_noop (pub : ContentPost → PublishResult)
    (t1 t2 : Int) (p : ContentPost) :
    (p.status ≠ "Scheduled" →
      Scheduler.process_post_step pub t1 p = (p, none)) ∧
    (p.status ≠ "Failed" →
      Scheduler.retry_failed_post pub t1 p = (p, none)) ∧
    effectivePublish (Scheduler.process_post_step pub t1 p) +
      effectivePublish (Scheduler.process_post_step pub t2
        (Scheduler.process_post_step pub t1 p).1) ≤ 1 ∧
    effectivePublish (Scheduler.retry_failed_post pub t1 p) +
      effectivePublish (Scheduler.retry_failed_post pub t2
        (Scheduler.retry_failed_post pub t1 p).1) ≤ 1 := by
  refine ⟨fun h => process_post_step_skip pub t1 p h,
    fun h => retry_failed_post_skip pub t1 p h, ?_, ?_⟩
  · rcases process_post_step_status pub t1 p with ⟨h2, _⟩ |
      ⟨hs, _, _, _, _, h2⟩ | ⟨_, e, h2⟩
    · rw [effectivePublish_none _ h2]
      simpa using effectivePublish_le_one
        (Scheduler.process_post_step pub t2
          (Scheduler.process_post_step pub t1 p).1)
    · have hne : (Scheduler.process_post_step pub t1 p).1.status ≠
          "Scheduled" := by
        rw [hs]
        decide
      rw [process_post_step_skip pub t2 _ hne]
      have hb := effectivePublish_le_one (Scheduler.process_post_step pub t1 p)
      have h0 : effectivePublish
          ((Scheduler.process_post_step pub t1 p).1,
            (none : Option PublishResult)) = 0 := rfl
      omega
    · rw [effectivePublish_failure _ e h2]
      simpa using effectivePublish_le_one
        (Scheduler.process_post_step pub t2
          (Scheduler.process_post_step pub t1 p).1)
  · rcases retry_failed_post_status pub t1 p with ⟨h2, _⟩ |
      ⟨hs, _, _, _, _, h2⟩ | ⟨_, e, h2⟩
    · rw [effectivePublish_none _ h2]
      simpa using effectivePublish_le_one
        (Scheduler.retry_failed_post pub t2
          (Scheduler.retry_failed_post pub t1 p).1)
    · have hne : (Scheduler.retry_failed_post pub t1 p).1.status ≠
          "Failed" := by
        rw [hs]
        decide
      rw [retry_failed_post_skip pub t2 _ hne]
      have hb := effectivePublish_le_one (Scheduler.retry_failed_post pub t1 p)
      have h0 : effectivePublish
          ((Scheduler.retry_failed_post pub t1 p).1,
            (none : Option PublishResult)) = 0 := rfl
      omega
    · rw [effectivePublish_failure _ e h2]
      simpa using effectivePublish_le_one
        (Scheduler.retry_failed_post pub t2
          (Scheduler.retry_failed_post pub t1 p).1)

/-- Witness for C6: a post reverted to `Draft` between selection and
processing is left untouched by the sweep step and by the retry job. -/
theorem stale_status_noop_witness :
    Scheduler.process_post_step okPub 0 testPost = (testPost, none) ∧
    Scheduler.retry_failed_post okPub 0 testPost = (testPost, none) :=
  ⟨(stale_status_noop okPub 0 1 testPost).1 (by decide),
   (stale_status_noop okPub 0 1 testPost).2.1 (by decide)⟩

/-- C7: the publisher always returns the normalized result shape — every
exception raised in the body (vendor failure included) is caught and
returned as `{success: False, error}` — and an unsupported content type
issues no vendor call at all, failing with the
"Unsupported content type" error once the credential preconditions hold. -/
theorem publisher_normalizes (g : String → String)
    (api : ApiCall → Except String ApiResult) (p : ContentPost)
    (prof : SocialProfile) :
    ((∃ pid url urn resp, (LinkedInPublisher.publish_post g api p prof).1 =
        PublishResult.success pid url urn resp) ∨
     (∃ e, (LinkedInPublisher.publish_post g api p prof).1 =
        PublishResult.failure e)) ∧
    (∀ e, (LinkedInPublisher.publish_post_body g api p prof).1 =
        Except.error e →
      (LinkedInPublisher.publish_post g api p prof).1 =
        PublishResult.failure e) ∧
    (p.content_type ≠ "Text" → p.content_type ≠ "Image" →
     p.content_type ≠ "Link" →
      (LinkedInPublisher.publish_post g api p prof).2 = [] ∧
      (falsyStr prof.linkedin_access_token = false →
       falsyStr (if prof.platform_type == "Company Page" then
           prof.linkedin_company_id else prof.linkedin_profile_id) = false →
       (LinkedInPublisher.publish_post g api p prof).1 =
         PublishResult.failure
           ("Unsupported content type: " ++ p.content_type))) := by
  refine ⟨?_, ?_, ?_⟩
  · rw [LinkedInPublisher.publish_post]
    rcases hb : LinkedInPublisher.publish_post_body g api p prof with
      ⟨b, calls⟩
    cases b with
    | ok v =>
      rcases v with ⟨pid, url, urn, resp⟩
      exact Or.inl ⟨pid, url, urn, resp, rfl⟩
    | error e => exact Or.inr ⟨e, rfl⟩
  · intro e he
    rw [LinkedInPublisher.publish_post]
    rcases hb : LinkedInPublisher.publish_post_body g api p prof with
      ⟨b, calls⟩
    rw [hb] at he
    cases b with
    | ok v => exact absurd he (by simp)
    | error e2 =>
      simp only at he
      rw [he]
  · intro hT hI hL
    have eT : (p.content_type == "Text") = false := by simp [hT]
    have eI : (p.content_type == "Image") = false := by simp [hI]
    have eL : (p.content_type == "Link") = false := by simp [hL]
    rw [LinkedInPublisher.publish_post, LinkedInPublisher.publish_post_body]
    by_cases htok : falsyStr prof.linkedin_access_token
    · rw [if_pos htok]
      exact ⟨rfl, by intro h; rw [htok] at h; cases h⟩
    · rw [if_neg htok]
      by_cases hid : falsyStr (if prof.platform_type == "Company Page" then
          prof.linkedin_company_id else prof.linkedin_profile_id)
      · rw [if_pos hid]
        exact ⟨rfl, by intro _ h; rw [hid] at h; cases h⟩
      · rw [if_neg hid]
        simp only [eT, eI, eL, Bool.false_eq_true, if_false]
        exact ⟨trivial, fun _ _ => trivial⟩

/-- Witness for C7: a post with the unsupported content type `Video`
fails with the normalizing error and no vendor call, for a profile with
valid token and identifier. -/
theorem publisher_normalizes_witness :
    (LinkedInPublisher.publish_post id
      (fun _ => Except.ok { id := "urn:li:share:1" })
      { testPost with content_type := "Video" }
      { name := "PROF-0001", platform_type := "Personal",
        linkedin_access_token := some "tok",
        linkedin_profile_id := some "alice",
        linkedin_company_id := none }).1 =
      PublishResult.failure "Unsupported content type: Video" :=
  ((publisher_normalizes id (fun _ => Except.ok { id := "urn:li:share:1" })
      { testPost with content_type := "Video" }
      { name := "PROF-0001", platform_type := "Personal",
        linkedin_access_token := some "tok",
        linkedin_profile_id := some "alice",
        linkedin_company_id := none }).2.2
    (by decide) (by decide) (by decide)).2 rfl rfl

/-- C8 counterexample: a 500 response to the read-engagement operation is
not converted into an error carrying the response detail — the operation
returns the empty stats dict (`Except.ok none`), discarding the response
text entirely. -/
theorem engagement_stats_no_error_counterexample :
    (LinkedInAPI.get_post_engagement_stats "urn:li:share:6001"
      { status_code := 500
        text := "Internal Server Error"
        body := { likes_summary := 1
                  comments_summary := 2
                  shares_summary := 3 } }).1 = Except.ok none := rfl

/-- C8 (amended): each vendor-client operation issues exactly one request
with no internal retry; the create-post and read-profile operations
convert a non-2xx response into an error carrying the raw response text,
while the read-engagement operation instead returns the empty stats dict
on a non-200 response, raising no error and carrying no response
detail. -/
theorem vendor_client_single_request (resp : HttpResponse ApiResult)
    (resp2 : HttpResponse SocialActionsBody) (cid urn : String) :
    (LinkedInAPI.create_text_post resp).2.length = 1 ∧
    (LinkedInAPI.get_profile_info resp).2.length = 1 ∧
    (LinkedInAPI.get_company_info cid resp).2.length = 1 ∧
    (LinkedInAPI.get_post_engagement_stats urn resp2).2.length = 1 ∧
    (resp.status_code ≠ 200 → resp.status_code ≠ 201 →
      (LinkedInAPI.create_text_post resp).1 =
        Except.error ("Failed to create post: " ++ resp.text)) ∧
    (resp.status_code ≠ 200 →
      (LinkedInAPI.get_profile_info resp).1 =
        Except.error ("Failed to get profile info: " ++ resp.text)) ∧
    (resp.status_code ≠ 200 →
      (LinkedInAPI.get_company_info cid resp).1 =
        Except.error ("Failed to get company info: " ++ resp.text)) ∧
    (resp2.status_code ≠ 200 →
      (LinkedInAPI.get_post_engagement_stats urn resp2).1 =
        Except.ok none) ∧
    (∀ e, (LinkedInAPI.get_post_engagement_stats urn resp2).1 ≠
      Except.error e) := by
  refine ⟨rfl, rfl, rfl, rfl, ?_, ?_, ?_, ?_, ?_⟩
  · intro h1 h2
    simp [LinkedInAPI.create_text_post, h1, h2]
  · intro h
    simp [LinkedInAPI.get_profile_info, h]
  · intro h
    simp [LinkedInAPI.get_company_info, h]
  · intro h
    simp [LinkedInAPI.get_post_engagement_stats, h]
  · intro e
    rw [LinkedInAPI.get_post_engagement_stats]
    split <;> simp

/-- Witness for C8 (amended): a concrete 500 response to create-post is
converted into the error carrying the raw response text. -/
theorem vendor_client_single_request_witness :
    (LinkedInAPI.create_text_post
      { status_code := 500, text := "boom", body := { id := "" } }).1 =
      Except.error "Failed to create post: boom" :=
  (vendor_client_single_request
    { status_code := 500, text := "boom", body := { id := "" } }
    { status_code := 200
      text := ""
      body := { likes_summary := 0
                comments_summary := 0
                shares_summary := 0 } }
    "c" "u").2.2.2.2.1 (by decide) (by decide)

/-- C9: the LinkedIn character limit. Provided the Link-URL precondition
does not fire first, validation raises the length error exactly when the
platform is LinkedIn and the content body exceeds 3000 characters; a
LinkedIn post over the limit is always rejected, a post of at most 3000
characters is never rejected on length grounds, and no length limit is
enforced for other platforms. -/
theorem linkedin_length_limit (p : ContentPost) :
    (¬ (p.content_type = "Link" ∧ falsyStr p.link_url = true) →
      (ContentPost.validate_content_requirements p =
          some ContentPost.ValidationError.linkedinTooLong ↔
        p.platform = "LinkedIn" ∧ 3000 < (p.content.getD "").length)) ∧
    (p.platform = "LinkedIn" → 3000 < (p.content.getD "").length →
      ContentPost.validate_content_requirements p ≠ none) ∧
    ((p.content.getD "").length ≤ 3000 →
      ContentPost.validate_content_requirements p ≠
        some ContentPost.ValidationError.linkedinTooLong) ∧
    (p.platform ≠ "LinkedIn" →
      ContentPost.validate_content_requirements p ≠
        some ContentPost.ValidationError.linkedinTooLong) := by
  refine ⟨?_, ?_, ?_, ?_⟩
  · intro hlink
    rw [ContentPost.validate_content_requirements]
    rw [if_neg (by simpa using hlink)]
    constructor
    · intro h
      by_cases hc : p.platform == "LinkedIn" ∧ (p.content.getD "").length > 3000
      · exact ⟨by simpa using hc.1, hc.2⟩
      · rw [if_neg (by simpa using hc)] at h
        cases h
    · intro ⟨h1, h2⟩
      rw [if_pos (by simp [h1, h2])]
  · intro h1 h2
    rw [ContentPost.validate_content_requirements]
    by_cases hlink : p.content_type == "Link" ∧ falsyStr p.link_url
    · rw [if_pos (by simpa using hlink)]
      simp
    · rw [if_neg (by simpa using hlink)]
      rw [if_pos (by simp [h1, h2])]
      simp
  · intro hlen
    rw [ContentPost.validate_content_requirements]
    by_cases hlink : p.content_type == "Link" ∧ falsyStr p.link_url
    · rw [if_pos (by simpa using hlink)]
      simp
    · rw [if_neg (by simpa using hlink)]
      have hcond : ¬ (p.platform == "LinkedIn" &&
          decide ((p.content.getD "").length > 3000)) = true := by
        simp only [Bool.and_eq_true, decide_eq_true_eq, not_and]
        intro _
        omega
      rw [if_neg hcond]
      simp
  · intro hplat
    rw [ContentPost.validate_content_requirements]
    by_cases hlink : p.content_type == "Link" ∧ falsyStr p.link_url
    · rw [if_pos (by simpa using hlink)]
      simp
    · rw [if_neg (by simpa using hlink)]
      rw [if_neg (by simp [hplat])]
      simp

theorem long_content_length :
    3000 < ((some (String.mk (List.replicate 3001 'x'))).getD "").length := by
  have h : ((some (String.mk (List.replicate 3001 'x'))).getD "").length =
      (List.replicate 3001 'x').length := rfl
  rw [h, List.length_replicate]
  omega

/-- Witness for C9: a short LinkedIn post is never rejected on length
grounds, and a 3001-character LinkedIn post is rejected. -/
theorem linkedin_length_limit_witness :
    (ContentPost.validate_content_requirements testPost ≠
      some ContentPost.ValidationError.linkedinTooLong) ∧
    ContentPost.validate_content_requirements
      { testPost with content := some (String.mk (List.replicate 3001 'x')) }
      ≠ none :=
  ⟨(linkedin_length_limit testPost).2.2.1 (by decide),
   (linkedin_length_limit
      { testPost with
        content := some (String.mk (List.replicate 3001 'x')) }).2.1 rfl
    long_content_length⟩

/-- C10: the vendor engagement operation reports `reposts = 0`
unconditionally whenever it reports stats at all; storing such data
leaves every new or refreshed snapshot row with `reposts = 0`; and with
`reposts = 0` the reposts term contributes nothing to the engagement
rate, which equals the spec formula taken with reposts 0. -/
theorem reposts_never_reported (urn : String)
    (resp : HttpResponse SocialActionsBody) (post_doc : ContentPost)
    (today : Nat) (t : Int) (db : List AnalyticsRecord) (d : AnalyticsData) :
    (∀ d0, (LinkedInAPI.get_post_engagement_stats urn resp).1 =
        Except.ok (some d0) → d0.reposts = some 0) ∧
    (d.reposts = some 0 →
      (∀ r ∈ LinkedInAnalytics.create_analytics_record post_doc d today t db,
        r ∈ db ∨ r.reposts = 0) ∧
      LinkedInAnalytics.calculate_engagement_rate d =
        spec_engagement_rate (d.likes.getD 0) (d.comments.getD 0)
          (d.shares.getD 0) 0 (d.impressions.getD 0)) := by
  constructor
  · intro d0 h
    rw [LinkedInAPI.get_post_engagement_stats] at h
    by_cases hs : resp.status_code != 200
    · rw [if_pos hs] at h
      cases h
    · rw [if_neg hs] at h
      simp only [Except.ok.injEq, Option.some.injEq] at h
      rw [← h]
  · intro hrep
    constructor
    · intro r hr
      rw [LinkedInAnalytics.create_analytics_record] at hr
      split at hr
      · rcases LinkedInAnalytics.mem_update_first _ _ db r hr with h | ⟨x, _, hx⟩
        · exact Or.inl h
        · refine Or.inr ?_
          rw [hx]
          simp [LinkedInAnalytics.apply_sync, hrep]
      · rcases List.mem_append.mp hr with h | h
        · exact Or.inl h
        · refine Or.inr ?_
          rcases List.mem_singleton.mp h with rfl
          simp [LinkedInAnalytics.new_record, hrep]
    · rw [calculate_engagement_rate_eq_spec d, hrep]
      rfl

/-- Witness for C10: the spec's worked sample (which carries
`reposts = 0`) stores only zero-repost rows from the empty store. -/
theorem reposts_never_reported_witness :
    ∀ r ∈ LinkedInAnalytics.create_analytics_record testPost dataA 7 1 [],
      r ∈ ([] : List AnalyticsRecord) ∨ r.reposts = 0 :=
  ((reposts_never_reported "u"
    { status_code := 200
      text := ""
      body := { likes_summary := 0
                comments_summary := 0
                shares_summary := 0 } }
    testPost 7 1 [] dataA).2 rfl).1
